import Mathlib

/-!
Verification of the Better Feeds preference-learning core.

The definitions below are a shallow embedding of the TypeScript sources:
`src/utils/classifier.ts` (tokenizer, preference model, sentiment fallback),
`src/background/index.ts` (the getPrediction message handler), and
`src/content/twitter.ts` (hide decision and the per-tweet interaction ledger).
JavaScript `Map<string, number>` values are embedded as total functions
`String → Nat` (absent key ↦ 0, matching `map.get(w) || 0`); JS numbers that
carry confidences are embedded as rationals.
-/

namespace BetterFeeds

/-! ## Data model (src/types.ts) -/

/-- Structure `TweetData` from src/types.ts.  Optional fields become `Option`. -/
structure TweetData where
  id : String
  username : String
  content : String
  timestamp : Nat
  rating : Option Int := none
  ratedAt : Option Nat := none
  deriving DecidableEq, Repr

/-- Structure `Settings` from src/types.ts; `filterThreshold` is an integer percent
in [0,100], embedded as `Nat` (the spec's data model gives its range). -/
structure Settings where
  filterEnabled : Bool
  filterThreshold : Nat
  deriving DecidableEq, Repr

/-- A prediction label, `'like' | 'dislike'`; `null` becomes `none` at use sites. -/
inductive Label where
  | like
  | dislike
  deriving DecidableEq, Repr

/-! ## Tokenizer: `TweetClassifier.processText` -/

/-- A character matching JS `\w` (after lowercasing): `[a-z0-9_]`. -/
def isWordChar (c : Char) : Bool :=
  c.isAlphanum || c = '_'

/-- The classifier's fixed stopword list (classifier.ts line 25). -/
def stopwords : List String :=
  ["a", "an", "the", "and", "or", "but", "is", "are", "was", "were",
   "in", "to", "of", "for"]

/-- Split a character list at every whitespace character, like
`"…".split(/\s/)`; a run of whitespace yields empty fragments, which every
caller below discards or ignores, so this agrees with JS `split(/\s+/)`
wherever the fragments are consumed.  (Structural recursion on the
characters, so it evaluates inside the kernel.) -/
def splitChars : List Char → List Char → List String
  | [], acc => [acc.reverse.asString]
  | c :: rest, acc =>
    if c.isWhitespace then acc.reverse.asString :: splitChars rest []
    else splitChars rest (c :: acc)

/-- Lowercased character sequence of a string (JS `text.toLowerCase()`). -/
def lowerChars (text : String) : List Char :=
  text.data.map Char.toLower

/-- Function `processText`: lowercase, strip characters outside `[\w\s]`, split on
whitespace, drop empties, drop stopwords and tokens of length ≤ 1. -/
def processText (text : String) : List String :=
  let cleaned : List Char :=
    (lowerChars text).filter (fun c => isWordChar c || c.isWhitespace)
  let tokens : List String :=
    (splitChars cleaned []).filter (fun t => t != "")
  tokens.filter (fun token => !(stopwords.contains token) && decide (1 < token.length))

/-! ## Preference model: `TweetClassifier` -/

/-- The classifier's mutable state: `trained`, `likedWords`, `dislikedWords`.
The two word-count maps are embedded as total functions (missing ↦ 0). -/
structure TweetClassifier where
  trained : Bool
  likedWords : String → Nat
  dislikedWords : String → Nat

/-- The freshly constructed classifier: untrained, both maps empty. -/
def TweetClassifier.mk0 : TweetClassifier :=
  { trained := false, likedWords := fun _ => 0, dislikedWords := fun _ => 0 }

/-- Constant `minTrainingExamples` (classifier.ts line 8). -/
def minTrainingExamples : Nat := 10

/-- The filter on train's input (classifier.ts lines 35-37):
`tweet.rating !== undefined && tweet.content` — a tweet with an empty
content string is falsy and is excluded. -/
def isRatedTweet (t : TweetData) : Bool :=
  t.rating.isSome && t.content != ""

/-- Increment loop `wordMap.set(word, (wordMap.get(word) || 0) + 1)` over one word list. -/
def addWords (m : String → Nat) (ws : List String) : String → Nat :=
  ws.foldl (fun m w => fun x => if x = w then m x + 1 else m x) m

/-- One iteration of train's tweet loop (classifier.ts lines 49-56):
route the tweet's tokens into the liked map iff `rating === 1`. -/
def trainStep (maps : (String → Nat) × (String → Nat)) (t : TweetData) :
    (String → Nat) × (String → Nat) :=
  let words := processText t.content
  if t.rating = some 1 then (addWords maps.1 words, maps.2)
  else (maps.1, addWords maps.2 words)

/-- Method `TweetClassifier.train` (classifier.ts lines 33-61).  Returns the
post-call state together with the boolean result.  On insufficient data it
returns `false` without touching the state; otherwise it rebuilds both maps
from cleared ones and sets `trained := true`. -/
def TweetClassifier.train (c : TweetClassifier) (tweets : List TweetData) :
    TweetClassifier × Bool :=
  let ratedTweets := tweets.filter isRatedTweet
  if ratedTweets.length < minTrainingExamples then
    (c, false)
  else
    let maps := ratedTweets.foldl trainStep (fun _ => 0, fun _ => 0)
    ({ trained := true, likedWords := maps.1, dislikedWords := maps.2 }, true)

/-- The score accumulation loop of `predict` (classifier.ts lines 78-81):
`score += map.get(word) || 0` over the token list. -/
def scoreOf (m : String → Nat) (words : List String) : Nat :=
  words.foldl (fun s w => s + m w) 0

/-- The value returned by `predict`: `{prediction, confidence}`. -/
structure PredictResult where
  prediction : Option Label
  confidence : ℚ
  deriving DecidableEq, Repr

/-- Method `TweetClassifier.predict` (classifier.ts lines 64-97). -/
def TweetClassifier.predict (c : TweetClassifier) (tweetContent : String) :
    PredictResult :=
  if !c.trained then
    { prediction := none, confidence := 0 }
  else
    let words := processText tweetContent
    if words.length = 0 then
      { prediction := none, confidence := 0 }
    else
      let likeScore := scoreOf c.likedWords words
      let dislikeScore := scoreOf c.dislikedWords words
      let totalScore := likeScore + dislikeScore
      if totalScore = 0 then
        { prediction := none, confidence := 0 }
      else
        let likeConfidence : ℚ := (likeScore : ℚ) / (totalScore : ℚ)
        let dislikeConfidence : ℚ := (dislikeScore : ℚ) / (totalScore : ℚ)
        if likeConfidence > dislikeConfidence then
          { prediction := some Label.like, confidence := likeConfidence }
        else
          { prediction := some Label.dislike, confidence := dislikeConfidence }

/-- Method `TweetClassifier.isReady` (classifier.ts lines 100-102). -/
def TweetClassifier.isReady (c : TweetClassifier) : Bool :=
  c.trained

/-! ## Heuristic sentiment fallback: `generateSimpleSentiment` -/

/-- The fixed positive lexicon (classifier.ts line 106). -/
def positiveWords : List String :=
  ["good", "great", "love", "excellent", "happy", "amazing"]

/-- The fixed negative lexicon (classifier.ts line 107). -/
def negativeWords : List String :=
  ["bad", "terrible", "hate", "awful", "sad", "horrible"]

/-- The whitespace split used by the fallback: `text.toLowerCase().split(/\s+/)`.
No punctuation stripping and no stopword removal here.  Empty fragments that a
character-level split produces at whitespace runs match no lexicon entry, so
the match counts agree with the JS regex split. -/
def sentimentTokens (text : String) : List String :=
  splitChars (lowerChars text) []

/-- Count of fallback tokens that are in the positive lexicon. -/
def positiveCount (text : String) : Nat :=
  ((sentimentTokens text).filter (fun w => positiveWords.contains w)).length

/-- Count of fallback tokens that are in the negative lexicon. -/
def negativeCount (text : String) : Nat :=
  ((sentimentTokens text).filter (fun w => negativeWords.contains w)).length

/-- Method `TweetClassifier.generateSimpleSentiment` (classifier.ts lines 105-122);
it reads no classifier state, so it is embedded as a plain function. -/
def generateSimpleSentiment (text : String) : String :=
  if positiveCount text > negativeCount text then "Positive"
  else if negativeCount text > positiveCount text then "Negative"
  else "Neutral"

/-! ## Decision engine: the `getPrediction` handler (background/index.ts) -/

/-- The response shape of the `getPrediction` handler.  `isUserRated` is
`Option Bool` because the untrained branch of the handler omits the field. -/
structure PredictionResponse where
  prediction : Option Label
  confidence : ℚ
  sentiment : Option String
  isUserRated : Option Bool
  deriving DecidableEq, Repr

/-- The `getPrediction` case of the background message handler
(background/index.ts lines 49-94).  `existingRating` is the stored rating of
the tweet in the DB, when the tweet exists and carries one
(`existingTweet?.rating !== undefined`). -/
def getRatingOrPrediction (existingRating : Option Int)
    (classifier : TweetClassifier) (content : String) : PredictionResponse :=
  match existingRating with
  | some r =>
    { prediction := some (if r = 1 then Label.like else Label.dislike),
      confidence := 1, sentiment := none, isUserRated := some true }
  | none =>
    if !classifier.isReady then
      { prediction := none, confidence := 0,
        sentiment := some (generateSimpleSentiment content), isUserRated := none }
    else
      let result := classifier.predict content
      { prediction := result.prediction, confidence := result.confidence,
        sentiment := none, isUserRated := some false }

/-! ## Hide decision (content/twitter.ts, getPrediction callback) -/

/-- The hide condition (twitter.ts lines 366-372):
`settings.filterEnabled && response.prediction === 'dislike' &&
 response.confidence && response.confidence > settings.filterThreshold / 100`.
An absent confidence is falsy; `q != 0` embeds the truthiness test on a
present numeric confidence. -/
def shouldHide (settings : Settings) (prediction : Option Label)
    (confidence : Option ℚ) : Bool :=
  settings.filterEnabled
    && decide (prediction = some Label.dislike)
    && (match confidence with
        | none => false
        | some q => decide (q ≠ 0) && decide ((settings.filterThreshold : ℚ) / 100 < q))

/-! ## Interaction ledger (content/twitter.ts, `processedTweets`) -/

/-- One entry of `processedTweets` (twitter.ts lines 8-17).  The DOM element
is abstracted to an opaque handle.  `prediction`, `confidence`, `sentiment`
start absent and are filled by the prediction-response callback. -/
structure LedgerRecord where
  element : Nat
  hasButtons : Bool
  isHidden : Bool
  prediction : Option Label
  confidence : Option ℚ
  sentiment : Option String
  deriving DecidableEq, Repr

/-- The `processedTweets` map, keyed by tweet ID. -/
def Ledger : Type := String → Option LedgerRecord

/-- Method `processTweet` (twitter.ts lines 158-206) restricted to its effect on the
ledger.  On a known ID it only re-attempts button injection when buttons are
still missing; on a new ID it creates the record (hasButtons false, isHidden
false) and then attempts injection.  `injectionSucceeds` abstracts whether
`injectRatingButtons` found an action bar and appended the buttons (the DOM
side is an external collaborator); only a successful injection sets
`hasButtons := true`. -/
def processTweet (ledger : Ledger) (tweetId : String) (element : Nat)
    (injectionSucceeds : Bool) : Ledger :=
  match ledger tweetId with
  | some record =>
    if record.hasButtons then ledger
    else if injectionSucceeds then
      fun i => if i = tweetId then some { record with hasButtons := true } else ledger i
    else ledger
  | none =>
    let base : LedgerRecord :=
      { element := element, hasButtons := false, isHidden := false,
        prediction := none, confidence := none, sentiment := none }
    let created := if injectionSucceeds then { base with hasButtons := true } else base
    fun i => if i = tweetId then some created else ledger i

/-- The ledger effect of the `getPrediction` response callback
(twitter.ts lines 344-348): when the record exists, overwrite the volatile
fields with the response's values; otherwise nothing happens. -/
def applyPredictionResponse (ledger : Ledger) (tweetId : String)
    (resp : PredictionResponse) : Ledger :=
  match ledger tweetId with
  | none => ledger
  | some record =>
    fun i =>
      if i = tweetId then
        some { record with
                 prediction := resp.prediction,
                 confidence := some resp.confidence,
                 sentiment := resp.sentiment }
      else ledger i

/-! ## Characterization helpers and concrete sample data -/

/-- Number of occurrences of `x` in a token list, as a sum (used to
characterize the incremental `Map.set` counting of `train`). -/
def wordCount (ws : List String) (x : String) : Nat :=
  (ws.map (fun w => if x = w then 1 else 0)).sum

/-- The contribution of one rated tweet to the liked map at term `x`. -/
def likedContrib (t : TweetData) (x : String) : Nat :=
  if t.rating = some 1 then wordCount (processText t.content) x else 0

/-- The contribution of one rated tweet to the disliked map at term `x`. -/
def dislikedContrib (t : TweetData) (x : String) : Nat :=
  if t.rating = some 1 then 0 else wordCount (processText t.content) x

/-- A concrete rated tweet for witnesses. -/
def sampleTweet (id : String) (content : String) (rating : Int) : TweetData :=
  { id := id, username := "user", content := content, timestamp := 0,
    rating := some rating, ratedAt := some 0 }

/-- Ten rated tweets: six liked ones containing "great", four disliked ones
containing "bad" — exactly `minTrainingExamples` rated items. -/
def sampleCorpus : List TweetData :=
  [sampleTweet "0" "great stuff" 1, sampleTweet "1" "great stuff" 1,
   sampleTweet "2" "great stuff" 1, sampleTweet "3" "great stuff" 1,
   sampleTweet "4" "great stuff" 1, sampleTweet "5" "great stuff" 1,
   sampleTweet "6" "bad stuff" (-1), sampleTweet "7" "bad stuff" (-1),
   sampleTweet "8" "bad stuff" (-1), sampleTweet "9" "bad stuff" (-1)]

/-- Ten rated tweets whose content is the empty string. -/
def emptyContentCorpus : List TweetData :=
  [sampleTweet "0" "" 1, sampleTweet "1" "" 1, sampleTweet "2" "" 1,
   sampleTweet "3" "" 1, sampleTweet "4" "" 1, sampleTweet "5" "" 1,
   sampleTweet "6" "" (-1), sampleTweet "7" "" (-1), sampleTweet "8" "" (-1),
   sampleTweet "9" "" (-1)]

/-- The empty interaction ledger. -/
def emptyLedger : Ledger := fun _ => none

/-- A concrete ledger record for witnesses. -/
def sampleRecord : LedgerRecord :=
  { element := 5, hasButtons := false, isHidden := false,
    prediction := none, confidence := none, sentiment := none }

/-- A ledger holding `sampleRecord` under ID "42". -/
def oneRecordLedger : Ledger :=
  fun i => if i = "42" then some sampleRecord else none

/-- The normalized like confidence `likeScore / (likeScore + dislikeScore)`
computed by `predict` on a text (as a rational). -/
def likeConfidenceOf (c : TweetClassifier) (content : String) : ℚ :=
  (scoreOf c.likedWords (processText content) : ℚ) /
    ((scoreOf c.likedWords (processText content) +
      scoreOf c.dislikedWords (processText content) : Nat) : ℚ)

/-- The normalized dislike confidence `dislikeScore / (likeScore + dislikeScore)`. -/
def dislikeConfidenceOf (c : TweetClassifier) (content : String) : ℚ :=
  (scoreOf c.dislikedWords (processText content) : ℚ) /
    ((scoreOf c.likedWords (processText content) +
      scoreOf c.dislikedWords (processText content) : Nat) : ℚ)

/-- A concrete prediction response for ledger witnesses. -/
def sampleResponse : PredictionResponse :=
  { prediction := some Label.dislike, confidence := 1,
    sentiment := none, isUserRated := some true }

/-! ## Helper lemmas about training -/

theorem addWords_apply (ws : List String) (m : String → Nat) (x : String) :
    addWords m ws x = m x + wordCount ws x := by
  induction ws generalizing m with
  | nil => simp [addWords, wordCount]
  | cons w ws ih =>
    have hstep : addWords m (w :: ws) = addWords (fun y => if y = w then m y + 1 else m y) ws := rfl
    rw [hstep, ih]
    by_cases hx : x = w <;> simp [wordCount, hx] <;> omega

theorem trainFold_fst (ts : List TweetData) (m₁ m₂ : String → Nat) (x : String) :
    (ts.foldl trainStep (m₁, m₂)).1 x = m₁ x + (ts.map (fun t => likedContrib t x)).sum := by
  induction ts generalizing m₁ m₂ with
  | nil => simp
  | cons t ts ih =>
    by_cases h : t.rating = some 1 <;>
      simp [trainStep, h, ih, addWords_apply, likedContrib] <;> omega

theorem trainFold_snd (ts : List TweetData) (m₁ m₂ : String → Nat) (x : String) :
    (ts.foldl trainStep (m₁, m₂)).2 x = m₂ x + (ts.map (fun t => dislikedContrib t x)).sum := by
  induction ts generalizing m₁ m₂ with
  | nil => simp
  | cons t ts ih =>
    by_cases h : t.rating = some 1 <;>
      simp [trainStep, h, ih, addWords_apply, dislikedContrib] <;> omega

theorem train_insufficient (c : TweetClassifier) (ts : List TweetData)
    (h : (ts.filter isRatedTweet).length < minTrainingExamples) :
    c.train ts = (c, false) := by
  simp [TweetClassifier.train, h]

theorem train_sufficient (c : TweetClassifier) (ts : List TweetData)
    (h : minTrainingExamples ≤ (ts.filter isRatedTweet).length) :
    c.train ts =
      ({ trained := true,
         likedWords := fun x => ((ts.filter isRatedTweet).map (fun t => likedContrib t x)).sum,
         dislikedWords := fun x => ((ts.filter isRatedTweet).map (fun t => dislikedContrib t x)).sum },
       true) := by
  have hnot : ¬ (ts.filter isRatedTweet).length < minTrainingExamples := Nat.not_lt.mpr h
  have hl : ((ts.filter isRatedTweet).foldl trainStep (fun _ => 0, fun _ => 0)).1
      = fun x => ((ts.filter isRatedTweet).map (fun t => likedContrib t x)).sum := by
    funext x
    simpa using trainFold_fst (ts.filter isRatedTweet) (fun _ => 0) (fun _ => 0) x
  have hd : ((ts.filter isRatedTweet).foldl trainStep (fun _ => 0, fun _ => 0)).2
      = fun x => ((ts.filter isRatedTweet).map (fun t => dislikedContrib t x)).sum := by
    funext x
    simpa using trainFold_snd (ts.filter isRatedTweet) (fun _ => 0) (fun _ => 0) x
  simp only [TweetClassifier.train, hnot, if_false, ite_false, hl, hd]

/-! ## Claim theorems -/

/-- C2: for every model state and every input whose rated size is below
`minTrainingExamples`, `train` returns `false` and leaves the whole model —
in particular both term mappings — exactly as it was. -/
theorem C2_train_small_input_no_mutation (c : TweetClassifier) (ts : List TweetData)
    (h : (ts.filter isRatedTweet).length < minTrainingExamples) :
    c.train ts = (c, false) ∧
      (c.train ts).1.likedWords = c.likedWords ∧
      (c.train ts).1.dislikedWords = c.dislikedWords := by
  have := train_insufficient c ts h
  exact ⟨this, by rw [this], by rw [this]⟩

/-- Witness for C2 at a concrete input: the untrained model and the empty list. -/
theorem C2_witness :
    TweetClassifier.mk0.train [] = (TweetClassifier.mk0, false) :=
  (C2_train_small_input_no_mutation TweetClassifier.mk0 [] (by decide)).1

/-- C10: `train` drops empty-content items along with unrated ones before
the size comparison, so it can return `false` with the model untouched even
when the input holds at least `minTrainingExamples` rated items. -/
theorem C10_empty_content_excluded (c : TweetClassifier) (ts : List TweetData)
    (hrated : minTrainingExamples ≤ (ts.filter (fun t => t.rating.isSome)).length)
    (hkept : (ts.filter isRatedTweet).length < minTrainingExamples) :
    c.train ts = (c, false) :=
  train_insufficient c ts hkept

/-- Witness for C10: ten rated tweets, all with empty text. -/
theorem C10_witness :
    TweetClassifier.mk0.train emptyContentCorpus = (TweetClassifier.mk0, false) :=
  C10_empty_content_excluded TweetClassifier.mk0 emptyContentCorpus
    (by decide) (by decide)

/-- C1 counterexample: train a model on ten rated tweets, then call `train`
again with the empty list.  The second call was given fewer than
`minTrainingExamples` labeled items and returns `false`, yet `trained` is
still `true` afterwards — the model does not revert to untrained, so the
claimed "trained iff this call got enough examples" biconditional fails. -/
theorem C1_counterexample :
    ((TweetClassifier.mk0.train sampleCorpus).1.train []).2 = false ∧
      ((TweetClassifier.mk0.train sampleCorpus).1.train []).1.trained = true :=
  ⟨rfl, rfl⟩

/-- C1 (amended): after any `train` call, `trained` is `true` iff this call
was given at least `minTrainingExamples` rated items or the model was
already trained before the call; a too-small call leaves the flag as it was
instead of reverting it to `false`. -/
theorem C1_trained_flag (c : TweetClassifier) (ts : List TweetData) :
    (c.train ts).1.trained = true ↔
      (minTrainingExamples ≤ (ts.filter isRatedTweet).length ∨ c.trained = true) := by
  by_cases h : (ts.filter isRatedTweet).length < minTrainingExamples
  · rw [train_insufficient c ts h]
    simp [Nat.not_le.mpr h]
  · rw [train_sufficient c ts (Nat.not_lt.mp h)]
    simp [Nat.not_lt.mp h]

/-- C7: a successful retrain is deterministic and order-independent — for
any two prior model states and any permutation of an input with at least
`minTrainingExamples` rated items, both calls succeed and produce identical
liked and disliked term mappings. -/
theorem C7_train_deterministic (c c' : TweetClassifier) (ts ts' : List TweetData)
    (hperm : ts.Perm ts')
    (h : minTrainingExamples ≤ (ts.filter isRatedTweet).length) :
    (c.train ts).2 = true ∧ (c'.train ts').2 = true ∧
      (c.train ts).1.likedWords = (c'.train ts').1.likedWords ∧
      (c.train ts).1.dislikedWords = (c'.train ts').1.dislikedWords := by
  have hpf : (ts.filter isRatedTweet).Perm (ts'.filter isRatedTweet) :=
    hperm.filter isRatedTweet
  have h' : minTrainingExamples ≤ (ts'.filter isRatedTweet).length :=
    hpf.length_eq ▸ h
  rw [train_sufficient c ts h, train_sufficient c' ts' h']
  refine ⟨rfl, rfl, ?_, ?_⟩
  · funext x
    exact (hpf.map (fun t => likedContrib t x)).sum_eq
  · funext x
    exact (hpf.map (fun t => dislikedContrib t x)).sum_eq

/-- Witness for C7: the ten-tweet sample corpus against itself. -/
theorem C7_witness :
    (TweetClassifier.mk0.train sampleCorpus).2 = true ∧
      ((TweetClassifier.mk0.train sampleCorpus).1.train sampleCorpus).2 = true ∧
      (TweetClassifier.mk0.train sampleCorpus).1.likedWords =
        (((TweetClassifier.mk0.train sampleCorpus).1.train sampleCorpus).1).likedWords ∧
      (TweetClassifier.mk0.train sampleCorpus).1.dislikedWords =
        (((TweetClassifier.mk0.train sampleCorpus).1.train sampleCorpus).1).dislikedWords :=
  C7_train_deterministic TweetClassifier.mk0 (TweetClassifier.mk0.train sampleCorpus).1
    sampleCorpus sampleCorpus (List.Perm.refl sampleCorpus) (by decide)

/-- C3: for every stored user rating, the `getPrediction` handler returns
`like` for a positive rating and `dislike` otherwise, with confidence
exactly 1 and `isUserRated = true`; the result is independent of the model
state and of the item's text, so the stored rating always overrides the
model. -/
theorem C3_rating_override (r : Int) (c c' : TweetClassifier)
    (content content' : String) (hr : r = 1 ∨ r = -1) :
    getRatingOrPrediction (some r) c content =
      { prediction := some (if 0 < r then Label.like else Label.dislike),
        confidence := 1, sentiment := none, isUserRated := some true } ∧
    getRatingOrPrediction (some r) c content =
      getRatingOrPrediction (some r) c' content' := by
  rcases hr with hr | hr <;> subst hr <;>
    exact ⟨by norm_num [getRatingOrPrediction], rfl⟩

/-- Witness for C3: a stored `+1` rating on two different model states. -/
theorem C3_witness :
    getRatingOrPrediction (some 1) TweetClassifier.mk0 "xyz" =
      { prediction := some (if 0 < (1 : Int) then Label.like else Label.dislike),
        confidence := 1, sentiment := none, isUserRated := some true } ∧
    getRatingOrPrediction (some 1) TweetClassifier.mk0 "xyz" =
      getRatingOrPrediction (some 1) (TweetClassifier.mk0.train sampleCorpus).1 "abc" :=
  C3_rating_override 1 TweetClassifier.mk0 (TweetClassifier.mk0.train sampleCorpus).1
    "xyz" "abc" (Or.inl rfl)

/-- C4: the hide decision is `true` iff the filter is enabled, the label is
`dislike`, a numeric confidence is present, and that confidence strictly
exceeds `filterThreshold / 100`; it is `false` whenever the filter is
disabled, and `false` at a confidence exactly equal to the threshold. -/
theorem C4_shouldHide_iff (s : Settings) (pred : Option Label) (conf : Option ℚ) :
    (shouldHide s pred conf = true ↔
      (s.filterEnabled = true ∧ pred = some Label.dislike ∧
        ∃ q : ℚ, conf = some q ∧ (s.filterThreshold : ℚ) / 100 < q)) ∧
    (s.filterEnabled = false → shouldHide s pred conf = false) ∧
    shouldHide s pred (some ((s.filterThreshold : ℚ) / 100)) = false := by
  refine ⟨?_, ?_, ?_⟩
  · cases conf with
    | none => simp [shouldHide]
    | some q =>
      simp only [shouldHide, Bool.and_eq_true, decide_eq_true_eq]
      constructor
      · rintro ⟨⟨he, hd⟩, _, hq⟩
        exact ⟨he, hd, q, rfl, hq⟩
      · rintro ⟨he, hd, q', hq', hlt⟩
        have hqq : q = q' := by injection hq'
        subst hqq
        have h0 : (0 : ℚ) ≤ (s.filterThreshold : ℚ) / 100 := by positivity
        exact ⟨⟨he, hd⟩, ne_of_gt (lt_of_le_of_lt h0 hlt), hlt⟩
  · intro he
    simp [shouldHide, he]
  · simp [shouldHide, lt_irrefl]

/-- Witness for C4: disabled filter forces a `false` decision even for a
maximal-confidence dislike. -/
theorem C4_witness :
    shouldHide { filterEnabled := false, filterThreshold := 50 }
      (some Label.dislike) (some 1) = false :=
  (C4_shouldHide_iff { filterEnabled := false, filterThreshold := 50 }
    (some Label.dislike) (some 1)).2.1 rfl

/-- C5: `predict` returns the label `none` exactly when the model is
untrained, or the tokenized text is empty, or no token hits the training
vocabulary (`likeScore + dislikeScore = 0`); and whenever the label is
`none` the whole result is `{none, 0}`. -/
theorem C5_predict_none_cases (c : TweetClassifier) (content : String) :
    ((c.predict content).prediction = none ↔
      (c.trained = false ∨ processText content = [] ∨
        scoreOf c.likedWords (processText content) +
          scoreOf c.dislikedWords (processText content) = 0)) ∧
    ((c.predict content).prediction = none →
      c.predict content = { prediction := none, confidence := 0 }) := by
  by_cases ht : c.trained = true
  · by_cases hw : processText content = []
    · have hlen : (processText content).length = 0 := by simp [hw]
      have hp : c.predict content = { prediction := none, confidence := 0 } := by
        simp [TweetClassifier.predict, ht, hlen]
      rw [hp]
      exact ⟨by simp [hw], fun _ => rfl⟩
    · have hlen : ¬ (processText content).length = 0 := by
        simpa [List.length_eq_zero] using hw
      by_cases hts : scoreOf c.likedWords (processText content) +
          scoreOf c.dislikedWords (processText content) = 0
      · have hp : c.predict content = { prediction := none, confidence := 0 } := by
          simp [TweetClassifier.predict, ht, hlen, hts]
        rw [hp]
        exact ⟨by simp [hts], fun _ => rfl⟩
      · have hp : (c.predict content).prediction ≠ none := by
          simp only [TweetClassifier.predict, ht, Bool.not_true, Bool.false_eq_true,
            if_false, ite_false, hlen, hts]
          split <;> simp
        constructor
        · constructor
          · intro hnone
            exact absurd hnone hp
          · rintro (h | h | h)
            · rw [ht] at h
              exact absurd h (by simp)
            · exact absurd h hw
            · exact absurd h hts
        · intro hnone
          exact absurd hnone hp
  · have ht' : c.trained = false := by
      revert ht
      cases c.trained <;> simp
    have hp : c.predict content = { prediction := none, confidence := 0 } := by
      simp [TweetClassifier.predict, ht']
    rw [hp]
    exact ⟨by simp [ht'], fun _ => rfl⟩

/-- Witness for C5: the untrained model on any text yields label `none`,
so the second conjunct fires and returns `{none, 0}`. -/
theorem C5_witness :
    TweetClassifier.mk0.predict "anything" = { prediction := none, confidence := 0 } :=
  (C5_predict_none_cases TweetClassifier.mk0 "anything").2 rfl

/-- C6: on a trained model and a text overlapping the training vocabulary,
`predict` returns `like` exactly when the normalized like score strictly
exceeds the normalized dislike score and `dislike` otherwise (ties go to
`dislike`); the confidence is the winning side's normalized score and lies
in `(0, 1]`. -/
theorem C6_predict_decision (c : TweetClassifier) (content : String)
    (ht : c.trained = true)
    (hs : 0 < scoreOf c.likedWords (processText content) +
        scoreOf c.dislikedWords (processText content)) :
    ((c.predict content).prediction = some Label.like ↔
      dislikeConfidenceOf c content < likeConfidenceOf c content) ∧
    ((c.predict content).prediction = some Label.dislike ↔
      ¬ dislikeConfidenceOf c content < likeConfidenceOf c content) ∧
    ((c.predict content).confidence =
      if dislikeConfidenceOf c content < likeConfidenceOf c content
      then likeConfidenceOf c content else dislikeConfidenceOf c content) ∧
    0 < (c.predict content).confidence ∧ (c.predict content).confidence ≤ 1 := by
  have hts : ¬ scoreOf c.likedWords (processText content) +
      scoreOf c.dislikedWords (processText content) = 0 := Nat.pos_iff_ne_zero.mp hs
  have hlen : ¬ (processText content).length = 0 := by
    intro h0
    rw [List.length_eq_zero.mp h0] at hs
    simp [scoreOf] at hs
  have htq : (0 : ℚ) < ((scoreOf c.likedWords (processText content) +
      scoreOf c.dislikedWords (processText content) : Nat) : ℚ) := by
    exact_mod_cast hs
  have hp : c.predict content =
      if dislikeConfidenceOf c content < likeConfidenceOf c content
      then { prediction := some Label.like, confidence := likeConfidenceOf c content }
      else { prediction := some Label.dislike, confidence := dislikeConfidenceOf c content } := by
    simp only [TweetClassifier.predict, ht, Bool.not_true, Bool.false_eq_true,
      if_false, ite_false, hlen, hts, likeConfidenceOf, dislikeConfidenceOf, gt_iff_lt]
  rw [hp]
  by_cases hcmp : dislikeConfidenceOf c content < likeConfidenceOf c content
  · have hd0 : (0 : ℚ) ≤ dislikeConfidenceOf c content := by
      unfold dislikeConfidenceOf
      positivity
    have hle : likeConfidenceOf c content ≤ 1 := by
      unfold likeConfidenceOf
      rw [div_le_one htq]
      exact_mod_cast Nat.le_add_right _ _
    simp only [hcmp, if_true, ite_true]
    exact ⟨by simp, by simp [hcmp], trivial, lt_of_le_of_lt hd0 hcmp, hle⟩
  · have hdpos : 0 < scoreOf c.dislikedWords (processText content) := by
      rcases Nat.eq_zero_or_pos (scoreOf c.dislikedWords (processText content)) with h0 | h
      · exfalso
        apply hcmp
        have hd0 : dislikeConfidenceOf c content = 0 := by
          simp [dislikeConfidenceOf, h0]
        have hl1 : likeConfidenceOf c content = 1 := by
          unfold likeConfidenceOf
          rw [div_eq_one_iff_eq (ne_of_gt htq)]
          simp [h0]
        rw [hd0, hl1]
        norm_num
      · exact h
    have hdq : 0 < dislikeConfidenceOf c content := by
      unfold dislikeConfidenceOf
      exact div_pos (by exact_mod_cast hdpos) htq
    have hle : dislikeConfidenceOf c content ≤ 1 := by
      unfold dislikeConfidenceOf
      rw [div_le_one htq]
      exact_mod_cast Nat.le_add_left _ _
    simp only [hcmp, if_false, ite_false]
    exact ⟨by simp [hcmp], by simp [hcmp], trivial, hdq, hle⟩

/-- Witness for C6: the sample-trained model on "this is great" (only liked
vocabulary matches). -/
theorem C6_witness :
    (((TweetClassifier.mk0.train sampleCorpus).1.predict "this is great").prediction =
        some Label.like ↔
      dislikeConfidenceOf (TweetClassifier.mk0.train sampleCorpus).1 "this is great" <
        likeConfidenceOf (TweetClassifier.mk0.train sampleCorpus).1 "this is great") ∧
    (((TweetClassifier.mk0.train sampleCorpus).1.predict "this is great").prediction =
        some Label.dislike ↔
      ¬ dislikeConfidenceOf (TweetClassifier.mk0.train sampleCorpus).1 "this is great" <
        likeConfidenceOf (TweetClassifier.mk0.train sampleCorpus).1 "this is great") ∧
    (((TweetClassifier.mk0.train sampleCorpus).1.predict "this is great").confidence =
      if dislikeConfidenceOf (TweetClassifier.mk0.train sampleCorpus).1 "this is great" <
          likeConfidenceOf (TweetClassifier.mk0.train sampleCorpus).1 "this is great"
      then likeConfidenceOf (TweetClassifier.mk0.train sampleCorpus).1 "this is great"
      else dislikeConfidenceOf (TweetClassifier.mk0.train sampleCorpus).1 "this is great") ∧
    0 < (((TweetClassifier.mk0.train sampleCorpus).1.predict "this is great")).confidence ∧
    (((TweetClassifier.mk0.train sampleCorpus).1.predict "this is great")).confidence ≤ 1 :=
  C6_predict_decision (TweetClassifier.mk0.train sampleCorpus).1 "this is great"
    (by decide) (by decide)

/-- C8: a ledger record is created exactly once, on the first sighting of a
tweet ID; a later sighting leaves `element` and `isHidden` unchanged and can
change `hasButtons` only from `false` to `true` via a successful button
injection, while the prediction-response callback refreshes exactly the
volatile fields (`prediction`, `confidence`, `sentiment`). -/
theorem C8_ledger_lifecycle (ledger : Ledger) (tweetId : String) (element : Nat)
    (inj : Bool) (resp : PredictionResponse) :
    (ledger tweetId = none →
      processTweet ledger tweetId element inj tweetId =
        some { element := element, hasButtons := inj, isHidden := false,
               prediction := none, confidence := none, sentiment := none }) ∧
    (∀ record, ledger tweetId = some record →
      ∃ record', processTweet ledger tweetId element inj tweetId = some record' ∧
        record'.element = record.element ∧
        record'.isHidden = record.isHidden ∧
        (record'.hasButtons = record.hasButtons ∨
          (record.hasButtons = false ∧ inj = true ∧ record'.hasButtons = true)) ∧
        record'.prediction = record.prediction ∧
        record'.confidence = record.confidence ∧
        record'.sentiment = record.sentiment) ∧
    (∀ record, ledger tweetId = some record →
      applyPredictionResponse ledger tweetId resp tweetId =
        some { record with
                 prediction := resp.prediction,
                 confidence := some resp.confidence,
                 sentiment := resp.sentiment }) := by
  refine ⟨?_, ?_, ?_⟩
  · intro h
    cases inj <;> simp [processTweet, h]
  · intro record h
    by_cases hb : record.hasButtons = true
    · exact ⟨record, by simp [processTweet, h, hb], rfl, rfl, Or.inl rfl, rfl, rfl, rfl⟩
    · have hb' : record.hasButtons = false := Bool.not_eq_true _ ▸ hb
      by_cases hi : inj = true
      · refine ⟨{ record with hasButtons := true }, ?_, rfl, rfl,
          Or.inr ⟨hb', hi, rfl⟩, rfl, rfl, rfl⟩
        simp [processTweet, h, hb', hi]
      · have hi' : inj = false := Bool.not_eq_true _ ▸ hi
        exact ⟨record, by simp [processTweet, h, hb', hi'], rfl, rfl, Or.inl rfl,
          rfl, rfl, rfl⟩
  · intro record h
    simp [applyPredictionResponse, h]

/-- Witness for C8: creation on an empty ledger, a repeat sighting, and a
response refresh on a one-record ledger. -/
theorem C8_witness :
    (processTweet emptyLedger "7" 3 false "7" =
      some { element := 3, hasButtons := false, isHidden := false,
             prediction := none, confidence := none, sentiment := none }) ∧
    (∃ record', processTweet oneRecordLedger "42" 9 true "42" = some record' ∧
        record'.element = sampleRecord.element ∧
        record'.isHidden = sampleRecord.isHidden ∧
        (record'.hasButtons = sampleRecord.hasButtons ∨
          (sampleRecord.hasButtons = false ∧ true = true ∧ record'.hasButtons = true)) ∧
        record'.prediction = sampleRecord.prediction ∧
        record'.confidence = sampleRecord.confidence ∧
        record'.sentiment = sampleRecord.sentiment) ∧
    (applyPredictionResponse oneRecordLedger "42" sampleResponse "42" =
      some { sampleRecord with
               prediction := sampleResponse.prediction,
               confidence := some sampleResponse.confidence,
               sentiment := sampleResponse.sentiment }) :=
  ⟨(C8_ledger_lifecycle emptyLedger "7" 3 false sampleResponse).1 rfl,
   (C8_ledger_lifecycle oneRecordLedger "42" 9 true sampleResponse).2.1
     sampleRecord (by decide),
   (C8_ledger_lifecycle oneRecordLedger "42" 9 true sampleResponse).2.2
     sampleRecord (by decide)⟩

/-- C9: the heuristic sentiment fallback returns "Positive" exactly when
strictly more whitespace-separated lowercase tokens match the positive
lexicon than the negative one, "Negative" in the reverse case, "Neutral" on
a tie; and it evaluates as specified on the three scenario texts. -/
theorem C9_sentiment_fallback (text : String) :
    (generateSimpleSentiment text = "Positive" ↔
      negativeCount text < positiveCount text) ∧
    (generateSimpleSentiment text = "Negative" ↔
      positiveCount text < negativeCount text) ∧
    (generateSimpleSentiment text = "Neutral" ↔
      positiveCount text = negativeCount text) ∧
    generateSimpleSentiment "I love this, amazing" = "Positive" ∧
    generateSimpleSentiment "I hate this, terrible" = "Negative" ∧
    generateSimpleSentiment "the sky is blue" = "Neutral" := by
  refine ⟨?_, ?_, ?_, by decide, by decide, by decide⟩
  · unfold generateSimpleSentiment
    split_ifs with h1 h2 <;> simp_all <;> omega
  · unfold generateSimpleSentiment
    split_ifs with h1 h2 <;> simp_all <;> omega
  · unfold generateSimpleSentiment
    split_ifs with h1 h2 <;> simp_all <;> omega

end BetterFeeds
